import Mathlib

/-!
Verification development for the sFTP loader program (src/sFTP_loader.py).

The program is an interactive shell that manages a remote directory over
SFTP: uploading a local file, creating a remote directory, deleting a
remote file or directory, and listing remote contents (flat, CSV, tree).

Shallow embedding conventions:

* The remote store (the SFTP server state) is modelled as a finite tree
  `FSEntry` of named files and directories; a remote path is a list of
  path segments.  The paramiko client primitives (stat, listdir, remove,
  rmdir, mkdir, put) become total Lean functions on this tree, returning
  `Option` where the client would raise an IOError.  Directory children
  are an association list with unique names (true of a real file
  system); `sorted(sftp.listdir(p))` followed by a per-name `stat`
  therefore coincides with a stable sort of the (name, entry) pairs by
  name, which is how the tree walker is embedded.
* Python strings keep their `String` type; `str.strip()` and
  `str.lower()` are embedded character-wise (`pyStrip`, `pyLower`).
* `time.ctime(attrs.st_mtime)` is an injective rendering of the
  modification time; listings keep the raw `Nat` timestamp, which the
  claims treat as opaque.
* The interactive loop consumes a script of stdin lines (`List String`);
  `sys.exit(n)` becomes the outcome `ShellOutcome.exited n`, a `break`
  becomes `loopEnded`, and a `continue` becomes `nextIter`.
* The local file system check in `upload_file` (exists and is a regular
  file, after expanduser/resolve) is an oracle `localOk : String → Bool`
  supplied to the shell; the upload transfer primitive is recorded as a
  `PutCall` effect, so the theorems can speak about every transfer the
  operation issues.
-/

/-- Whitespace test used by the embedding of Python str.strip. -/
def isSpaceChar (c : Char) : Bool :=
  c = ' ' || c = '\t' || c = '\n' || c = '\r' || c = '\x0b' || c = '\x0c'

/-- Embedding of Python str.strip(): removes leading whitespace, then
trailing whitespace. -/
def pyStrip (s : String) : String :=
  String.mk (List.rdropWhile isSpaceChar (s.data.dropWhile isSpaceChar))

/-- Embedding of Python str.lower() (ASCII case folding suffices here). -/
def pyLower (s : String) : String :=
  String.mk (s.data.map Char.toLower)

/-- The universal exit token test of the ask helper: response.lower() == "exit"
after stripping (src/sFTP_loader.py lines 42-43). -/
def isExitTok (s : String) : Bool :=
  pyLower (pyStrip s) = "exit"

/-- Lexicographic comparison of character lists by code point, the
order Python sorted() uses on strings. -/
def charListLe : List Char → List Char → Bool
  | [], _ => true
  | _ :: _, [] => false
  | a :: as, b :: bs =>
    if a.toNat < b.toNat then true
    else if b.toNat < a.toNat then false
    else charListLe as bs

/-- The string order of Python sorted(): code-point lexicographic. -/
def strLe (a b : String) : Bool :=
  charListLe a.data b.data

/-- The name ordering of remote listings, as a relation. -/
def nameLe (a b : String) : Prop := strLe a b = true

instance nameLe.decRel : DecidableRel nameLe := fun a b =>
  inferInstanceAs (Decidable (strLe a b = true))

/-- Splits a character list at forward slashes, accumulating the
current segment in reverse. -/
def splitSegsAux : List Char → List Char → List String
  | [], acc => [String.mk acc.reverse]
  | c :: rest, acc =>
    if c = '/' then String.mk acc.reverse :: splitSegsAux rest []
    else splitSegsAux rest (c :: acc)

/-- Splits a user-entered remote path string into segments, as
PurePosixPath normalisation does (empty segments dropped). -/
def splitPath (s : String) : List String :=
  (splitSegsAux s.data []).filter (fun c => c ≠ "")

/-- Joins path segments with forward slashes, the str() rendering of a
relative PurePosixPath. -/
def joinSegs : List String → String
  | [] => ""
  | [x] => x
  | x :: y :: rest => x ++ "/" ++ joinSegs (y :: rest)

/-- Embedding of pathlib Path.name: the final path component. -/
def basenameOf (s : String) : String :=
  (splitPath s).getLastD ""

/-- A node of the remote store: a regular file or a directory, each
carrying a modification time; directory children are an association
list from names to entries. -/
inductive FSEntry where
  | file (mtime : Nat)
  | dir (mtime : Nat) (children : List (String × FSEntry))

/-- Modification time of an entry (attrs.st_mtime). -/
def FSEntry.mtimeOf : FSEntry → Nat
  | .file m => m
  | .dir m _ => m

/-- Directory test of a stat result: stat.S_ISDIR(attrs.st_mode). -/
def FSEntry.isDirE : FSEntry → Bool
  | .dir _ _ => true
  | .file _ => false

/-- Looks up a child entry by name in a directory listing. -/
def lookupName : List (String × FSEntry) → String → Option FSEntry
  | [], _ => none
  | (m, e) :: rest, n => if m = n then some e else lookupName rest n

/-- Replaces the child with the given name, or appends it when absent. -/
def setChild : List (String × FSEntry) → String → FSEntry → List (String × FSEntry)
  | [], n, e => [(n, e)]
  | (m, e0) :: rest, n, e =>
    if m = n then (n, e) :: rest else (m, e0) :: setChild rest n e

/-- Removes the child with the given name, if present. -/
def removeChild : List (String × FSEntry) → String → List (String × FSEntry)
  | [], _ => []
  | (m, e) :: rest, n => if m = n then rest else (m, e) :: removeChild rest n

/-- Embedding of sftp.stat: descends the store along the path and
returns the entry there; none models the IOError paramiko raises for a
missing path. -/
def statFS : FSEntry → List String → Option FSEntry
  | e, [] => some e
  | .file _, _ :: _ => none
  | .dir _ cs, n :: rest =>
    match lookupName cs n with
    | some e => statFS e rest
    | none => none

/-- Embedding of sftp.listdir: the child names of the directory at the
path, in store order; none models the IOError for a missing or
non-directory path. -/
def listdirFS (root : FSEntry) (p : List String) : Option (List String) :=
  match statFS root p with
  | some (.dir _ cs) => some (cs.map Prod.fst)
  | _ => none

/-- Removes the node at the path (used by sftp.remove and, for the
directory case, sftp.rmdir); leaves the store unchanged when the path
is absent. -/
def removeFS (root : FSEntry) : List String → FSEntry
  | [] => root
  | n :: rest =>
    match root with
    | .file m => .file m
    | .dir m cs =>
      match rest with
      | [] => .dir m (removeChild cs n)
      | _ :: _ =>
        match lookupName cs n with
        | some e => .dir m (setChild cs n (removeFS e rest))
        | none => .dir m cs

/-- Embedding of sftp.put on the remote side: creates or overwrites a
regular file at the path; fails (none) when the parent directory is
missing or the target is an existing directory, where paramiko raises
an IOError. -/
def putFS (root : FSEntry) : List String → Option FSEntry
  | [] => none
  | n :: rest =>
    match root with
    | .file _ => none
    | .dir m cs =>
      match rest with
      | [] =>
        match lookupName cs n with
        | some (.dir _ _) => none
        | _ => some (.dir m (setChild cs n (.file 0)))
      | _ :: _ =>
        match lookupName cs n with
        | some e => (putFS e rest).map (fun e2 => .dir m (setChild cs n e2))
        | none => none

/-- Embedding of sftp.mkdir: creates an empty directory at the path;
fails (none) when the path already exists or the parent is missing,
where paramiko raises an IOError. -/
def mkdirFS (root : FSEntry) : List String → Option FSEntry
  | [] => none
  | n :: rest =>
    match root with
    | .file _ => none
    | .dir m cs =>
      match rest with
      | [] =>
        match lookupName cs n with
        | some _ => none
        | none => some (.dir m (setChild cs n (.dir 0 [])))
      | _ :: _ =>
        match lookupName cs n with
        | some e => (mkdirFS e rest).map (fun e2 => .dir m (setChild cs n e2))
        | none => none

/-- Embedding of sftp.rmdir: removes the directory at the path; fails
(none) when the path is missing, is not a directory, or is non-empty,
where paramiko raises an IOError. -/
def rmdirFS (root : FSEntry) (p : List String) : Option FSEntry :=
  match statFS root p with
  | some (.dir _ []) => some (removeFS root p)
  | _ => none

/-- Embedding of the ask helper (src/sFTP_loader.py lines 37-46): strips
the raw input line; none models sys.exit(0) on the exit token, some r
returns the stripped response. -/
def ask (inp : String) : Option String :=
  let response := pyStrip inp
  if pyLower response = "exit" then none else some response

/-- Result of reading one line of the script through ask. -/
inductive AskRes where
  | exit0
  | need
  | got (r : String) (rest : List String)

/-- Pops the next scripted input line and runs ask on it; need models a
blocked read on an exhausted script. -/
def askStep : List String → AskRes
  | [] => .need
  | s :: rest =>
    match ask s with
    | none => .exit0
    | some r => .got r rest

/-- Pops the next scripted input line raw, as the bare input() call on
line 292 does: no stripping and no exit-token check. -/
def inputStep : List String → Option (String × List String)
  | [] => none
  | s :: rest => some (s, rest)

/-- Outcome of the body of the with-block handed to sftp_connection. -/
inductive BodyResult where
  | ok
  | raises

/-- Which resources an sftp_connection run opened and released, and
whether the run raised. -/
structure ConnTrace where
  transportOpened : Bool
  sftpOpened : Bool
  sftpClosed : Bool
  transportClosed : Bool
  raised : Bool
deriving DecidableEq

/-- Embedding of the sftp_connection context manager (lines 48-58).
socketOk models the pm.Transport((host, port)) constructor succeeding
(reachable host: the transport object exists and its socket is open);
connectOk models transport.connect (authentication) succeeding;
fromTransportOk models pm.SFTPClient.from_transport succeeding; body is
the outcome of the with-block.  The try/finally in the source encloses
only the yield, so the two close calls run exactly on the paths that
reach the yield. -/
def sftp_connection_run (socketOk connectOk fromTransportOk : Bool)
    (body : BodyResult) : ConnTrace :=
  if socketOk = false then
    { transportOpened := false, sftpOpened := false,
      sftpClosed := false, transportClosed := false, raised := true }
  else if connectOk = false then
    { transportOpened := true, sftpOpened := false,
      sftpClosed := false, transportClosed := false, raised := true }
  else if fromTransportOk = false then
    { transportOpened := true, sftpOpened := false,
      sftpClosed := false, transportClosed := false, raised := true }
  else
    match body with
    | .ok =>
      { transportOpened := true, sftpOpened := true,
        sftpClosed := true, transportClosed := true, raised := false }
    | .raises =>
      { transportOpened := true, sftpOpened := true,
        sftpClosed := true, transportClosed := true, raised := true }

/-- Every resource the run opened was released before the scope exited. -/
def releasedAll (t : ConnTrace) : Prop :=
  (t.transportOpened = true → t.transportClosed = true) ∧
  (t.sftpOpened = true → t.sftpClosed = true)

instance (t : ConnTrace) : Decidable (releasedAll t) := by
  unfold releasedAll; infer_instance

/-- One call of the transfer primitive sftp.put(local, remote, confirm). -/
structure PutCall where
  localArg : String
  remoteArg : String
  confirm : Bool
deriving DecidableEq

/-- Failures of the upload operation. -/
inductive UploadErr where
  | fileNotFound
  | ioError
deriving DecidableEq

/-- Embedding of upload_file (lines 61-96): validates the local path
through the localOk oracle (exists and is a regular file, after
expanduser/resolve), computes remote_file = remote_dir / local_path.name,
and issues one sftp.put with confirm=True; a put failure propagates.
Returns the updated store and the list of transfer calls issued. -/
def upload_file (localOk : String → Bool) (localPathStr : String)
    (remoteDir : List String) (store : FSEntry) :
    Except UploadErr FSEntry × List PutCall :=
  if localOk localPathStr = false then
    (.error .fileNotFound, [])
  else
    let name := basenameOf localPathStr
    let target := remoteDir ++ [name]
    let call : PutCall :=
      { localArg := localPathStr, remoteArg := joinSegs target, confirm := true }
    match putFS store target with
    | none => (.error .ioError, [call])
    | some store2 => (.ok store2, [call])

/-- Embedding of create_dir (lines 98-115): issues one sftp.mkdir inside
a try that catches every exception and prints it, so the function always
returns normally.  Returns the (possibly unchanged) store and the lines
printed. -/
def create_dir (store : FSEntry) (remoteDir : List String) :
    FSEntry × List String :=
  match mkdirFS store remoteDir with
  | some store2 =>
    (store2, ["Folder " ++ joinSegs remoteDir ++ " created successfully"])
  | none =>
    (store, ["Error creating folder: mkdir failed"])

/-- A client request issued by the delete operation. -/
inductive Req where
  | statR (p : List String)
  | removeR (p : List String)
  | rmdirR (p : List String)
deriving DecidableEq

/-- Failures of the delete operation. -/
inductive DeleteErr where
  | fileNotFound (p : List String)
  | isADirectory (p : List String)
  | ioError
deriving DecidableEq

/-- Embedding of delete (lines 117-155).  For deletion_type "file" it
stats the target first: a failed stat raises FileNotFoundError, a
directory target raises IsADirectoryError, otherwise sftp.remove runs.
For deletion_type "folder" it issues sftp.rmdir directly.  Any other
deletion_type matches neither branch and the function body does
nothing.  All raised errors propagate to the caller (the outer except
clause only logs and re-raises).  Returns the result together with the
list of client requests issued. -/
def delete (store : FSEntry) (p : List String) (deletion_type : String) :
    Except DeleteErr FSEntry × List Req :=
  if deletion_type = "file" then
    match statFS store p with
    | none => (.error (.fileNotFound p), [.statR p])
    | some attrs =>
      if attrs.isDirE then
        (.error (.isADirectory p), [.statR p])
      else
        (.ok (removeFS store p), [.statR p, .removeR p])
  else if deletion_type = "folder" then
    match rmdirFS store p with
    | none => (.error .ioError, [.rmdirR p])
    | some store2 => (.ok store2, [.rmdirR p])
  else
    (.ok store, [])

/-- Failure of a listing round trip (IOError from listdir or stat). -/
inductive SftpErr where
  | ioError
deriving DecidableEq

/-- A stat round trip threaded through the remote store state: reads
the entry, leaves the store untouched. -/
def statOp (p : List String) (s : FSEntry) : Option FSEntry × FSEntry :=
  (statFS s p, s)

/-- A listdir round trip threaded through the remote store state. -/
def listdirOp (p : List String) (s : FSEntry) : Option (List String) × FSEntry :=
  (listdirFS s p, s)

/-- The loop body of view_contents (lines 172-176): for each name, one
stat round trip, collecting (name, mtime) pairs in order; a failed stat
raises, which propagates. -/
def viewLoop (base : List String) :
    List String → FSEntry → Except SftpErr (List (String × Nat)) × FSEntry
  | [], s => (.ok [], s)
  | n :: rest, s =>
    match statOp (base ++ [n]) s with
    | (none, s1) => (.error .ioError, s1)
    | (some e, s1) =>
      match viewLoop base rest s1 with
      | (.ok out, s2) => (.ok ((n, e.mtimeOf) :: out), s2)
      | (.error err, s2) => (.error err, s2)

/-- Embedding of view_contents (lines 157-177): lists the remote
directory, sorts the names ascending, and stats each name in that
order; returns the ordered (name, mtime) sequence, threading the store
state through every round trip. -/
def view_contents (p : List String) (s : FSEntry) :
    Except SftpErr (List (String × Nat)) × FSEntry :=
  match listdirOp p s with
  | (none, s1) => (.error .ioError, s1)
  | (some names, s1) => viewLoop p (List.insertionSort nameLe names) s1

/-- Order on directory children by name, the key used by
sorted(sftp.listdir(path)). -/
def childLE (a b : String × FSEntry) : Prop := nameLe a.1 b.1

instance childLE.decRel : DecidableRel childLE := fun a b =>
  inferInstanceAs (Decidable (nameLe a.1 b.1))

theorem charListLe_total (xs ys : List Char) :
    charListLe xs ys = true ∨ charListLe ys xs = true := by
  induction xs generalizing ys with
  | nil => left; rfl
  | cons a as ih =>
    cases ys with
    | nil => right; rfl
    | cons b bs =>
      by_cases h1 : a.toNat < b.toNat
      · left; simp [charListLe, h1]
      · by_cases h2 : b.toNat < a.toNat
        · right; simp [charListLe, h2]
        · rcases ih bs with h | h
          · left; simp [charListLe, h1, h2, h]
          · right; simp [charListLe, h1, h2, h]

theorem charListLe_trans (xs ys zs : List Char)
    (h1 : charListLe xs ys = true) (h2 : charListLe ys zs = true) :
    charListLe xs zs = true := by
  induction xs generalizing ys zs with
  | nil => rfl
  | cons a as ih =>
    cases ys with
    | nil => simp [charListLe] at h1
    | cons b bs =>
      cases zs with
      | nil => simp [charListLe] at h2
      | cons c cs =>
        simp only [charListLe] at h1 h2 ⊢
        by_cases hab : a.toNat < b.toNat
        · by_cases hbc : b.toNat < c.toNat
          · have hac : a.toNat < c.toNat := Nat.lt_trans hab hbc
            simp [hac]
          · by_cases hcb : c.toNat < b.toNat
            · simp [hbc, hcb] at h2
            · have hac : a.toNat < c.toNat := by omega
              simp [hac]
        · by_cases hba : b.toNat < a.toNat
          · simp [hab, hba] at h1
          · simp only [if_neg hab, if_neg hba] at h1
            by_cases hbc : b.toNat < c.toNat
            · have hac : a.toNat < c.toNat := by omega
              simp [hac]
            · by_cases hcb : c.toNat < b.toNat
              · simp [hbc, hcb] at h2
              · simp only [if_neg hbc, if_neg hcb] at h2
                have hac1 : ¬ a.toNat < c.toNat := by omega
                have hac2 : ¬ c.toNat < a.toNat := by omega
                simp only [if_neg hac1, if_neg hac2]
                exact ih bs cs h1 h2

instance nameLe.total : IsTotal String nameLe :=
  ⟨fun a b => charListLe_total a.data b.data⟩

instance nameLe.trans : IsTrans String nameLe :=
  ⟨fun a b c h1 h2 => charListLe_trans a.data b.data c.data h1 h2⟩

instance childLE.total : IsTotal (String × FSEntry) childLE :=
  ⟨fun a b => charListLe_total a.1.data b.1.data⟩

instance childLE.trans : IsTrans (String × FSEntry) childLE :=
  ⟨fun _ _ _ h1 h2 => charListLe_trans _ _ _ h1 h2⟩

/-- The children of a directory in ascending name order: the embedding
of entries = sorted(sftp.listdir(path)) followed by one stat per name
(children names are unique, so sorting the pairs by name is the same
sequence of (name, entry) the source walks). -/
def sortChildren (cs : List (String × FSEntry)) : List (String × FSEntry) :=
  List.insertionSort childLE cs

/-- branch = "└── " if idx == len(entries)-1 else "├── " (line 223). -/
def branchFor (isLast : Bool) : String :=
  if isLast then "└── " else "├── "

/-- extension = "    " if idx == len(entries)-1 else "│   " (line 227). -/
def extFor (isLast : Bool) : String :=
  if isLast then "    " else "│   "

/-- sizeOf is invariant under list permutation (used to justify that
walking a sorted permutation of the children terminates). -/
theorem perm_sizeOf_eq {α} [SizeOf α] {l1 l2 : List α}
    (h : l1.Perm l2) : sizeOf l1 = sizeOf l2 := by
  induction h with
  | nil => rfl
  | cons a _ ih => simp [ih]
  | swap a b l => simp; omega
  | trans _ _ ih1 ih2 => omega

theorem sizeOf_sortChildren (cs : List (String × FSEntry)) :
    sizeOf (sortChildren cs) = sizeOf cs :=
  perm_sizeOf_eq (List.perm_insertionSort childLE cs)

/-- The recursive tree walk _walk of stfp_formatter (lines 218-228),
acting on a directory listing already in ascending name order: each
entry prints one connector line (last entry "└── ", others "├── ",
directories suffixed "/"), and a directory entry is walked recursively
with the prefix extended by four spaces when it was last, "│   "
otherwise. -/
def walkList : List (String × FSEntry) → String → List String
  | [], _ => []
  | (name, FSEntry.file _) :: rest, pre =>
    (pre ++ branchFor rest.isEmpty ++ name) :: walkList rest pre
  | (name, FSEntry.dir _ cs) :: rest, pre =>
    (pre ++ branchFor rest.isEmpty ++ name ++ "/")
      :: (walkList (sortChildren cs) (pre ++ extFor rest.isEmpty)
          ++ walkList rest pre)
termination_by l _ => sizeOf l
decreasing_by
  all_goals
    simp only [sizeOf_sortChildren, List.cons.sizeOf_spec, Prod.mk.sizeOf_spec,
      FSEntry.dir.sizeOf_spec, FSEntry.file.sizeOf_spec]
  all_goals omega

/-- _walk at one directory entry: lists its children sorted ascending
by name and renders them. -/
def walk (e : FSEntry) (pre : String) : List String :=
  match e with
  | .file _ => []
  | .dir _ cs => walkList (sortChildren cs) pre

/-- Embedding of stfp_formatter (lines 198-232): prints the root line
root + "/" and then the recursive walk of the remote directory; a
failed listing of the root raises, which propagates. -/
def stfp_formatter (store : FSEntry) (p : List String) :
    Except SftpErr (List String) :=
  match statFS store p with
  | some (FSEntry.dir m cs) =>
    .ok ((joinSegs p ++ "/") :: walk (FSEntry.dir m cs) "")
  | _ => .error .ioError

/-- Outcome of one iteration of the while-loop of main (or of the
credential collection): the process exited with a code, the script ran
dry, the loop broke (restart answered no), or control reached the next
iteration with the remaining script. -/
inductive ShellOutcome where
  | exited (code : Nat)
  | needInput
  | loopEnded (store : FSEntry)
  | nextIter (store : FSEntry) (rest : List String)

/-- The restart logic at the tail of every loop iteration (lines
339-355): the continue prompt (break on no), then the same-credentials
prompt; answering no re-collects the three credential prompts; an
unrecognised answer logs an error and continues the loop. -/
def afterOp (store : FSEntry) (inputs : List String) : ShellOutcome :=
  match askStep inputs with
  | .exit0 => .exited 0
  | .need => .needInput
  | .got r rest =>
    let restart := pyLower (pyStrip r)
    if restart = "no" then .loopEnded store
    else
      match askStep rest with
      | .exit0 => .exited 0
      | .need => .needInput
      | .got sc rest2 =>
        let same_creds := pyLower (pyStrip sc)
        if same_creds = "yes" then .nextIter store rest2
        else if same_creds = "no" then
          match askStep rest2 with
          | .exit0 => .exited 0
          | .need => .needInput
          | .got _ rest3 =>
            match askStep rest3 with
            | .exit0 => .exited 0
            | .need => .needInput
            | .got _ rest4 =>
              match askStep rest4 with
              | .exit0 => .exited 0
              | .need => .needInput
              | .got _ rest5 => .nextIter store rest5
        else .nextIter store rest2

/-- One iteration of the interactive loop of main (lines 267-355),
driven by the scripted input lines.  localOk is the local file system
oracle used by the upload branch; store is the remote store.  Every
prompt goes through ask except the deletion-type question, which the
source reads with a bare input() call (line 292).  Operation failures
are caught and terminate the process with exit status 1; create_dir
cannot fail; an unrecognised view mode or top-level choice logs an
error and exits 1. -/
def mainIter (localOk : String → Bool) (store : FSEntry)
    (inputs : List String) : ShellOutcome :=
  match askStep inputs with
  | .exit0 => .exited 0
  | .need => .needInput
  | .got c rest =>
    let choice := pyLower (pyStrip c)
    if choice = "upload" then
      match askStep rest with
      | .exit0 => .exited 0
      | .need => .needInput
      | .got srcStr rest2 =>
        match askStep rest2 with
        | .exit0 => .exited 0
        | .need => .needInput
        | .got dstStr rest3 =>
          match upload_file localOk srcStr (splitPath (pyStrip dstStr)) store with
          | (.error _, _) => .exited 1
          | (.ok store2, _) => afterOp store2 rest3
    else if choice = "folder" then
      match askStep rest with
      | .exit0 => .exited 0
      | .need => .needInput
      | .got dirStr rest2 =>
        let (store2, _) := create_dir store (splitPath (pyStrip dirStr))
        afterOp store2 rest2
    else if choice = "delete" then
      match inputStep rest with
      | none => .needInput
      | some (deletion_type, rest2) =>
        match askStep rest2 with
        | .exit0 => .exited 0
        | .need => .needInput
        | .got dstStr rest3 =>
          match delete store (splitPath (pyStrip dstStr)) deletion_type with
          | (.error _, _) => .exited 1
          | (.ok store2, _) => afterOp store2 rest3
    else if choice = "view" then
      match askStep rest with
      | .exit0 => .exited 0
      | .need => .needInput
      | .got dirStr rest2 =>
        match askStep rest2 with
        | .exit0 => .exited 0
        | .need => .needInput
        | .got vm rest3 =>
          let view_mode := pyLower (pyStrip vm)
          let segs := splitPath (pyStrip dirStr)
          if view_mode = "list" then
            match view_contents segs store with
            | (.error _, _) => .exited 1
            | (.ok _, store2) => afterOp store2 rest3
          else if view_mode = "tree" then
            match stfp_formatter store segs with
            | .error _ => .exited 1
            | .ok _ => afterOp store rest3
          else if view_mode = "csv" then
            match view_contents segs store with
            | (.error _, _) => .exited 1
            | (.ok _, store2) =>
              match askStep rest3 with
              | .exit0 => .exited 0
              | .need => .needInput
              | .got _ rest4 => afterOp store2 rest4
          else .exited 1
    else .exited 1

/-- Outcome of collecting the three credential prompts (lines 261-263
and 349-351): host, username, password, each read through ask. -/
inductive CredRes where
  | exit0
  | need
  | got (host username password : String) (rest : List String)

/-- The credential collection sequence at program start (lines 261-263):
three ask prompts in a row. -/
def collectCreds (inputs : List String) : CredRes :=
  match askStep inputs with
  | .exit0 => .exit0
  | .need => .need
  | .got h rest =>
    match askStep rest with
    | .exit0 => .exit0
    | .need => .need
    | .got u rest2 =>
      match askStep rest2 with
      | .exit0 => .exit0
      | .need => .need
      | .got p rest3 => .got (pyStrip h) u (pyStrip p) rest3

/-! Helper lemmas about the input helpers and the shell. -/

theorem dropWhile_eq_self_of_prefix {α} (p : α → Bool) {l1 l2 : List α}
    (hp : l1 <+: l2) (h2 : l2.dropWhile p = l2) : l1.dropWhile p = l1 := by
  rw [List.dropWhile_eq_self_iff] at h2 ⊢
  intro hl
  have hlen : 0 < l2.length := lt_of_lt_of_le hl hp.length_le
  have hg := List.IsPrefix.getElem hp hl
  have h0 := h2 hlen
  simp only [List.get_eq_getElem] at h0 ⊢
  rw [hg]
  exact h0

theorem pyStrip_idem (s : String) : pyStrip (pyStrip s) = pyStrip s := by
  have h1 : (List.rdropWhile isSpaceChar
      (s.data.dropWhile isSpaceChar)).dropWhile isSpaceChar
      = List.rdropWhile isSpaceChar (s.data.dropWhile isSpaceChar) :=
    dropWhile_eq_self_of_prefix _ (List.rdropWhile_prefix _ _)
      (List.dropWhile_idempotent _ _)
  show String.mk (List.rdropWhile isSpaceChar
      ((List.rdropWhile isSpaceChar
        (s.data.dropWhile isSpaceChar)).dropWhile isSpaceChar)) = _
  rw [h1, List.rdropWhile_idempotent]
  rfl

theorem ask_of_exit {s : String} (h : isExitTok s = true) : ask s = none := by
  unfold isExitTok at h
  simp only [decide_eq_true_eq] at h
  simp [ask, h]

theorem ask_of_not_exit {s : String} (h : isExitTok s = false) :
    ask s = some (pyStrip s) := by
  unfold isExitTok at h
  simp only [decide_eq_false_iff_not] at h
  simp [ask, h]

theorem askStep_exit {s : String} (rest : List String)
    (h : isExitTok s = true) : askStep (s :: rest) = .exit0 := by
  simp [askStep, ask_of_exit h]

theorem askStep_got {s : String} (rest : List String)
    (h : isExitTok s = false) : askStep (s :: rest) = .got (pyStrip s) rest := by
  simp [askStep, ask_of_not_exit h]

/-- The processed answer of a prompt: ask strips once and the call
sites strip again, which changes nothing. -/
theorem pyLower_pyStrip_pyStrip (s : String) :
    pyLower (pyStrip (pyStrip s)) = pyLower (pyStrip s) := by
  rw [pyStrip_idem]

theorem mainIter_exit_prompt (lo : String → Bool) (store : FSEntry)
    {c : String} (rest : List String) (h : isExitTok c = true) :
    mainIter lo store (c :: rest) = .exited 0 := by
  unfold mainIter
  rw [askStep_exit rest h]

theorem mainIter_upload_eq (lo : String → Bool) (store : FSEntry)
    (src dst : String) (rest : List String)
    (hsrc : isExitTok src = false) (hdst : isExitTok dst = false) :
    mainIter lo store ("upload" :: src :: dst :: rest)
      = match upload_file lo (pyStrip src) (splitPath (pyStrip dst)) store with
        | (.error _, _) => .exited 1
        | (.ok store2, _) => afterOp store2 rest := by
  have h0 : mainIter lo store ("upload" :: src :: dst :: rest)
      = (match askStep (src :: dst :: rest) with
         | .exit0 => ShellOutcome.exited 0
         | .need => ShellOutcome.needInput
         | .got srcStr rest2 =>
           match askStep rest2 with
           | .exit0 => ShellOutcome.exited 0
           | .need => ShellOutcome.needInput
           | .got dstStr rest3 =>
             match upload_file lo srcStr (splitPath (pyStrip dstStr)) store with
             | (.error _, _) => ShellOutcome.exited 1
             | (.ok store2, _) => afterOp store2 rest3) := rfl
  rw [h0]
  simp only [askStep_got _ hsrc, askStep_got _ hdst, pyStrip_idem]

theorem mainIter_folder_eq (lo : String → Bool) (store : FSEntry)
    (d : String) (rest : List String) (hd : isExitTok d = false) :
    mainIter lo store ("folder" :: d :: rest)
      = afterOp (create_dir store (splitPath (pyStrip d))).1 rest := by
  have h0 : mainIter lo store ("folder" :: d :: rest)
      = (match askStep (d :: rest) with
         | .exit0 => ShellOutcome.exited 0
         | .need => ShellOutcome.needInput
         | .got dirStr rest2 =>
           afterOp (create_dir store (splitPath (pyStrip dirStr))).1 rest2) := rfl
  rw [h0]
  simp only [askStep_got _ hd, pyStrip_idem]

theorem mainIter_delete_eq (lo : String → Bool) (store : FSEntry)
    (dt dst : String) (rest : List String) (hdst : isExitTok dst = false) :
    mainIter lo store ("delete" :: dt :: dst :: rest)
      = match delete store (splitPath (pyStrip dst)) dt with
        | (.error _, _) => .exited 1
        | (.ok store2, _) => afterOp store2 rest := by
  have h0 : mainIter lo store ("delete" :: dt :: dst :: rest)
      = (match askStep (dst :: rest) with
         | .exit0 => ShellOutcome.exited 0
         | .need => ShellOutcome.needInput
         | .got dstStr rest3 =>
           match delete store (splitPath (pyStrip dstStr)) dt with
           | (.error _, _) => ShellOutcome.exited 1
           | (.ok store2, _) => afterOp store2 rest3) := rfl
  rw [h0]
  simp only [askStep_got _ hdst, pyStrip_idem]

theorem mainIter_view_eq (lo : String → Bool) (store : FSEntry)
    (d vm : String) (rest : List String)
    (hd : isExitTok d = false) (hvm : isExitTok vm = false) :
    mainIter lo store ("view" :: d :: vm :: rest)
      = (if pyLower (pyStrip vm) = "list" then
           match view_contents (splitPath (pyStrip d)) store with
           | (.error _, _) => ShellOutcome.exited 1
           | (.ok _, store2) => afterOp store2 rest
         else if pyLower (pyStrip vm) = "tree" then
           match stfp_formatter store (splitPath (pyStrip d)) with
           | .error _ => ShellOutcome.exited 1
           | .ok _ => afterOp store rest
         else if pyLower (pyStrip vm) = "csv" then
           match view_contents (splitPath (pyStrip d)) store with
           | (.error _, _) => ShellOutcome.exited 1
           | (.ok _, store2) =>
             match askStep rest with
             | .exit0 => ShellOutcome.exited 0
             | .need => ShellOutcome.needInput
             | .got _ rest2 => afterOp store2 rest2
         else ShellOutcome.exited 1) := by
  have h0 : mainIter lo store ("view" :: d :: vm :: rest)
      = (match askStep (d :: vm :: rest) with
         | .exit0 => ShellOutcome.exited 0
         | .need => ShellOutcome.needInput
         | .got dirStr rest2 =>
           match askStep rest2 with
           | .exit0 => ShellOutcome.exited 0
           | .need => ShellOutcome.needInput
           | .got vmStr rest3 =>
             if pyLower (pyStrip vmStr) = "list" then
               match view_contents (splitPath (pyStrip dirStr)) store with
               | (.error _, _) => ShellOutcome.exited 1
               | (.ok _, store2) => afterOp store2 rest3
             else if pyLower (pyStrip vmStr) = "tree" then
               match stfp_formatter store (splitPath (pyStrip dirStr)) with
               | .error _ => ShellOutcome.exited 1
               | .ok _ => afterOp store rest3
             else if pyLower (pyStrip vmStr) = "csv" then
               match view_contents (splitPath (pyStrip dirStr)) store with
               | (.error _, _) => ShellOutcome.exited 1
               | (.ok _, store2) =>
                 match askStep rest3 with
                 | .exit0 => ShellOutcome.exited 0
                 | .need => ShellOutcome.needInput
                 | .got _ rest4 => afterOp store2 rest4
             else ShellOutcome.exited 1) := rfl
  rw [h0]
  simp only [askStep_got _ hd, askStep_got _ hvm, pyStrip_idem]

theorem mainIter_invalid_choice (lo : String → Bool) (store : FSEntry)
    (c : String) (rest : List String) (hc : isExitTok c = false)
    (h1 : pyLower (pyStrip c) ≠ "upload") (h2 : pyLower (pyStrip c) ≠ "folder")
    (h3 : pyLower (pyStrip c) ≠ "delete") (h4 : pyLower (pyStrip c) ≠ "view") :
    mainIter lo store (c :: rest) = .exited 1 := by
  unfold mainIter
  rw [askStep_got _ hc]
  simp [pyStrip_idem, h1, h2, h3, h4]

theorem afterOp_exit (store : FSEntry) {r : String} (rest : List String)
    (h : isExitTok r = true) : afterOp store (r :: rest) = .exited 0 := by
  unfold afterOp
  rw [askStep_exit rest h]

theorem afterOp_no (store : FSEntry) {r : String} (rest : List String)
    (hr : isExitTok r = false) (hno : pyLower (pyStrip r) = "no") :
    afterOp store (r :: rest) = .loopEnded store := by
  unfold afterOp
  rw [askStep_got _ hr]
  simp [pyStrip_idem, hno]

theorem afterOp_yes_yes (store : FSEntry) {r sc : String} (rest : List String)
    (hr : isExitTok r = false) (hrno : pyLower (pyStrip r) ≠ "no")
    (hsc : isExitTok sc = false) (hscyes : pyLower (pyStrip sc) = "yes") :
    afterOp store (r :: sc :: rest) = .nextIter store rest := by
  unfold afterOp
  rw [askStep_got _ hr]
  simp only [pyStrip_idem, hrno, if_neg]
  rw [askStep_got _ hsc]
  simp [pyStrip_idem, hscyes]

theorem afterOp_second_exit (store : FSEntry) {r sc : String} (rest : List String)
    (hr : isExitTok r = false) (hrno : pyLower (pyStrip r) ≠ "no")
    (hsc : isExitTok sc = true) :
    afterOp store (r :: sc :: rest) = .exited 0 := by
  unfold afterOp
  rw [askStep_got _ hr]
  simp only [pyStrip_idem, hrno, if_neg]
  rw [askStep_exit rest hsc]
  simp

theorem afterOp_recred1_exit (store : FSEntry) {r sc t : String} (rest : List String)
    (hr : isExitTok r = false) (hrno : pyLower (pyStrip r) ≠ "no")
    (hsc : isExitTok sc = false) (hscno : pyLower (pyStrip sc) = "no")
    (ht : isExitTok t = true) :
    afterOp store (r :: sc :: t :: rest) = .exited 0 := by
  unfold afterOp
  rw [askStep_got _ hr]
  simp only [pyStrip_idem, hrno, if_neg]
  rw [askStep_got _ hsc]
  simp only [pyStrip_idem, hscno]
  rw [askStep_exit rest ht]
  simp

theorem afterOp_recred2_exit (store : FSEntry) {r sc h t : String} (rest : List String)
    (hr : isExitTok r = false) (hrno : pyLower (pyStrip r) ≠ "no")
    (hsc : isExitTok sc = false) (hscno : pyLower (pyStrip sc) = "no")
    (hh : isExitTok h = false) (ht : isExitTok t = true) :
    afterOp store (r :: sc :: h :: t :: rest) = .exited 0 := by
  unfold afterOp
  rw [askStep_got _ hr]
  simp only [pyStrip_idem, hrno, if_neg]
  rw [askStep_got _ hsc]
  simp only [pyStrip_idem, hscno]
  rw [askStep_got _ hh]
  simp only []
  rw [askStep_exit rest ht]
  simp

theorem afterOp_recred3_exit (store : FSEntry) {r sc h u t : String}
    (rest : List String)
    (hr : isExitTok r = false) (hrno : pyLower (pyStrip r) ≠ "no")
    (hsc : isExitTok sc = false) (hscno : pyLower (pyStrip sc) = "no")
    (hh : isExitTok h = false) (hu : isExitTok u = false)
    (ht : isExitTok t = true) :
    afterOp store (r :: sc :: h :: u :: t :: rest) = .exited 0 := by
  unfold afterOp
  rw [askStep_got _ hr]
  simp only [pyStrip_idem, hrno, if_neg]
  rw [askStep_got _ hsc]
  simp only [pyStrip_idem, hscno]
  rw [askStep_got _ hh]
  simp only []
  rw [askStep_got _ hu]
  simp only []
  rw [askStep_exit rest ht]
  simp

theorem collectCreds_exit1 {t : String} (rest : List String)
    (ht : isExitTok t = true) : collectCreds (t :: rest) = .exit0 := by
  unfold collectCreds
  rw [askStep_exit rest ht]

theorem collectCreds_exit2 {h t : String} (rest : List String)
    (hh : isExitTok h = false) (ht : isExitTok t = true) :
    collectCreds (h :: t :: rest) = .exit0 := by
  unfold collectCreds
  rw [askStep_got _ hh]
  simp only []
  rw [askStep_exit rest ht]

theorem collectCreds_exit3 {h u t : String} (rest : List String)
    (hh : isExitTok h = false) (hu : isExitTok u = false)
    (ht : isExitTok t = true) :
    collectCreds (h :: u :: t :: rest) = .exit0 := by
  unfold collectCreds
  rw [askStep_got _ hh]
  simp only []
  rw [askStep_got _ hu]
  simp only []
  rw [askStep_exit rest ht]

theorem viewLoop_state_eq (base : List String) (names : List String)
    (s : FSEntry) : (viewLoop base names s).2 = s := by
  induction names with
  | nil => rfl
  | cons n rest ih =>
    unfold viewLoop statOp
    cases h : statFS s (base ++ [n])
    · rfl
    · cases h2 : viewLoop base rest s with
      | mk r s2 =>
        have hs : s2 = s := by
          have := ih
          rw [h2] at this
          exact this
        cases r <;> simp [h2, hs]

theorem view_contents_state_eq (p : List String) (s : FSEntry) :
    (view_contents p s).2 = s := by
  unfold view_contents listdirOp
  cases h : listdirFS s p
  · rfl
  · exact viewLoop_state_eq p _ s

/-- C9: invoking the listing operation twice with no intervening
mutation of the remote store returns two identical ordered sequences:
the listing round trips leave the store state unchanged, so the second
run starts from the same store and produces the same (name, mtime)
sequence. -/
theorem view_contents_idempotent (p : List String) (s : FSEntry) :
    (view_contents p s).2 = s
    ∧ view_contents p ((view_contents p s).2) = view_contents p s := by
  have h := view_contents_state_eq p s
  exact ⟨h, by rw [h]⟩

/-- C10: for every deletion_type other than exactly "file" or exactly
"folder" (including capitalized answers such as "File" or "Folder"),
the delete operation issues no remove or rmdir request, raises no
error, and returns normally with the remote store unchanged. -/
theorem delete_other_type_noop (store : FSEntry) (p : List String)
    (deletion_type : String) (h1 : deletion_type ≠ "file")
    (h2 : deletion_type ≠ "folder") :
    delete store p deletion_type = (.ok store, []) := by
  simp [delete, h1, h2]

theorem delete_other_type_noop_witness :
    delete (FSEntry.dir 0 [("a", FSEntry.file 5)]) ["a"] "File"
      = (.ok (FSEntry.dir 0 [("a", FSEntry.file 5)]), []) :=
  delete_other_type_noop _ _ _ (by decide) (by decide)

/-- C4: delete with kind file first stats the target; it fails with
FileNotFoundError when the target is absent and with IsADirectoryError
when the target is a directory, and in both failure cases the request
list contains no remove or rmdir; when the target is a regular file it
removes it. -/
theorem delete_file_stats_first (store : FSEntry) (p : List String) :
    (statFS store p = none →
      delete store p "file" = (.error (.fileNotFound p), [.statR p]))
    ∧ (∀ m cs, statFS store p = some (.dir m cs) →
      delete store p "file" = (.error (.isADirectory p), [.statR p]))
    ∧ (∀ m, statFS store p = some (.file m) →
      delete store p "file"
        = (.ok (removeFS store p), [.statR p, .removeR p])) := by
  refine ⟨fun h => ?_, fun m cs h => ?_, fun m h => ?_⟩ <;>
    simp [delete, h, FSEntry.isDirE]

theorem delete_file_stats_first_witness :
    (statFS (FSEntry.dir 0 []) ["x"] = none
      ∧ delete (FSEntry.dir 0 []) ["x"] "file"
          = (.error (.fileNotFound ["x"]), [.statR ["x"]]))
    ∧ (statFS (FSEntry.dir 0 [("d", FSEntry.dir 1 [])]) ["d"]
          = some (FSEntry.dir 1 [])
      ∧ delete (FSEntry.dir 0 [("d", FSEntry.dir 1 [])]) ["d"] "file"
          = (.error (.isADirectory ["d"]), [.statR ["d"]]))
    ∧ (statFS (FSEntry.dir 0 [("f", FSEntry.file 2)]) ["f"]
          = some (FSEntry.file 2)
      ∧ delete (FSEntry.dir 0 [("f", FSEntry.file 2)]) ["f"] "file"
          = (.ok (FSEntry.dir 0 []),
             [.statR ["f"], .removeR ["f"]])) :=
  ⟨⟨rfl, (delete_file_stats_first (FSEntry.dir 0 []) ["x"]).1 rfl⟩,
   ⟨rfl, (delete_file_stats_first
      (FSEntry.dir 0 [("d", FSEntry.dir 1 [])]) ["d"]).2.1 1 [] rfl⟩,
   ⟨rfl, by
      have h := (delete_file_stats_first
        (FSEntry.dir 0 [("f", FSEntry.file 2)]) ["f"]).2.2 2 rfl
      simpa [removeFS, removeChild] using h⟩⟩

/-- C5: for a local path accepted by the local-file validation, the
upload operation issues exactly one transfer call, targeting exactly
remoteDir joined with the base name of the local path, with integrity
confirmation enabled; on success the store is updated by a put at that
one target and nowhere else. -/
theorem upload_puts_exactly_at_target (localOk : String → Bool)
    (localPathStr : String) (remoteDir : List String) (store : FSEntry)
    (h : localOk localPathStr = true) :
    (upload_file localOk localPathStr remoteDir store).2
      = [{ localArg := localPathStr,
           remoteArg := joinSegs (remoteDir ++ [basenameOf localPathStr]),
           confirm := true }]
    ∧ ∀ store2,
        (upload_file localOk localPathStr remoteDir store).1 = .ok store2 →
        putFS store (remoteDir ++ [basenameOf localPathStr]) = some store2 := by
  unfold upload_file
  simp only [h, Bool.true_eq_false, if_false]
  cases hput : putFS store (remoteDir ++ [basenameOf localPathStr]) <;>
    simp [hput]

theorem upload_puts_exactly_at_target_witness :
    (upload_file (fun _ => true) "dir/a.txt" ["r"]
        (FSEntry.dir 0 [("r", FSEntry.dir 1 [])])).2
      = [{ localArg := "dir/a.txt", remoteArg := "r/a.txt",
           confirm := true }] := by
  have h := upload_puts_exactly_at_target (fun _ => true) "dir/a.txt" ["r"]
    (FSEntry.dir 0 [("r", FSEntry.dir 1 [])]) rfl
  rw [h.1]
  rfl

/-- C3 counterexample: when authentication fails (transport.connect
raises), the already-opened transport is not released, because the
try/finally of the context manager begins only after the connect call;
this refutes release on every exit path. -/
theorem sftp_connection_auth_failure_leaks :
    ¬ releasedAll (sftp_connection_run true false true BodyResult.ok) := by
  decide

/-- C3 (amended): once the transport is connected and the SFTP channel
obtained, both are released on every exit of the scope, whether the
enclosed operation completes or raises; but when connection
establishment or authentication fails, the opened transport is left
unreleased. -/
theorem sftp_connection_release_paths (socketOk : Bool) (body : BodyResult) :
    releasedAll (sftp_connection_run socketOk true true body)
    ∧ (sftp_connection_run true false true body).transportOpened = true
    ∧ (sftp_connection_run true false true body).transportClosed = false
    ∧ (sftp_connection_run true true false body).transportOpened = true
    ∧ (sftp_connection_run true true false body).transportClosed = false := by
  cases socketOk <;> cases body <;>
    exact ⟨by decide, by decide, by decide, by decide, by decide⟩

theorem mainIter_upload_unfold (lo : String → Bool) (store : FSEntry)
    (ins : List String) :
    mainIter lo store ("upload" :: ins)
      = (match askStep ins with
         | .exit0 => ShellOutcome.exited 0
         | .need => ShellOutcome.needInput
         | .got srcStr rest2 =>
           match askStep rest2 with
           | .exit0 => ShellOutcome.exited 0
           | .need => ShellOutcome.needInput
           | .got dstStr rest3 =>
             match upload_file lo srcStr (splitPath (pyStrip dstStr)) store with
             | (.error _, _) => ShellOutcome.exited 1
             | (.ok store2, _) => afterOp store2 rest3) := rfl

theorem mainIter_folder_unfold (lo : String → Bool) (store : FSEntry)
    (ins : List String) :
    mainIter lo store ("folder" :: ins)
      = (match askStep ins with
         | .exit0 => ShellOutcome.exited 0
         | .need => ShellOutcome.needInput
         | .got dirStr rest2 =>
           afterOp (create_dir store (splitPath (pyStrip dirStr))).1 rest2) := rfl

theorem mainIter_delete_unfold (lo : String → Bool) (store : FSEntry)
    (dt : String) (ins : List String) :
    mainIter lo store ("delete" :: dt :: ins)
      = (match askStep ins with
         | .exit0 => ShellOutcome.exited 0
         | .need => ShellOutcome.needInput
         | .got dstStr rest3 =>
           match delete store (splitPath (pyStrip dstStr)) dt with
           | (.error _, _) => ShellOutcome.exited 1
           | (.ok store2, _) => afterOp store2 rest3) := rfl

theorem mainIter_view_unfold (lo : String → Bool) (store : FSEntry)
    (ins : List String) :
    mainIter lo store ("view" :: ins)
      = (match askStep ins with
         | .exit0 => ShellOutcome.exited 0
         | .need => ShellOutcome.needInput
         | .got dirStr rest2 =>
           match askStep rest2 with
           | .exit0 => ShellOutcome.exited 0
           | .need => ShellOutcome.needInput
           | .got vmStr rest3 =>
             if pyLower (pyStrip vmStr) = "list" then
               match view_contents (splitPath (pyStrip dirStr)) store with
               | (.error _, _) => ShellOutcome.exited 1
               | (.ok _, store2) => afterOp store2 rest3
             else if pyLower (pyStrip vmStr) = "tree" then
               match stfp_formatter store (splitPath (pyStrip dirStr)) with
               | .error _ => ShellOutcome.exited 1
               | .ok _ => afterOp store rest3
             else if pyLower (pyStrip vmStr) = "csv" then
               match view_contents (splitPath (pyStrip dirStr)) store with
               | (.error _, _) => ShellOutcome.exited 1
               | (.ok _, store2) =>
                 match askStep rest3 with
                 | .exit0 => ShellOutcome.exited 0
                 | .need => ShellOutcome.needInput
                 | .got _ rest4 => afterOp store2 rest4
             else ShellOutcome.exited 1) := rfl

/-- C8: when the remote directory-creation request fails, create_dir
catches the error, reports it, and returns normally, and the shell loop
continues to its restart logic; the other three operations propagate
their failures, which the shell turns into exit status 1. -/
theorem create_dir_swallows_errors (store : FSEntry) :
    (∀ p, mkdirFS store p = none →
      create_dir store p = (store, ["Error creating folder: mkdir failed"]))
    ∧ (∀ (lo : String → Bool) d rest, isExitTok d = false →
      mkdirFS store (splitPath (pyStrip d)) = none →
      mainIter lo store ("folder" :: d :: "yes" :: "yes" :: rest)
        = .nextIter store rest)
    ∧ (∀ (lo : String → Bool) src dst rest,
      isExitTok src = false → isExitTok dst = false →
      lo (pyStrip src) = false →
      mainIter lo store ("upload" :: src :: dst :: rest) = .exited 1)
    ∧ (∀ (lo : String → Bool) dst rest, isExitTok dst = false →
      statFS store (splitPath (pyStrip dst)) = none →
      mainIter lo store ("delete" :: "file" :: dst :: rest) = .exited 1)
    ∧ (∀ (lo : String → Bool) d vm rest,
      isExitTok d = false → isExitTok vm = false →
      pyLower (pyStrip vm) = "list" →
      statFS store (splitPath (pyStrip d)) = none →
      mainIter lo store ("view" :: d :: vm :: rest) = .exited 1) := by
  refine ⟨fun p hm => ?_, fun lo d rest hd hm => ?_,
          fun lo src dst rest hsrc hdst hlo => ?_,
          fun lo dst rest hdst hstat => ?_,
          fun lo d vm rest hd hvm hvml hstat => ?_⟩
  · unfold create_dir
    rw [hm]
  · have hc : (create_dir store (splitPath (pyStrip d))).1 = store := by
      unfold create_dir
      rw [hm]
    rw [mainIter_folder_eq _ _ _ _ hd, hc]
    exact afterOp_yes_yes store _ (by decide) (by decide) (by decide) (by decide)
  · rw [mainIter_upload_eq _ _ _ _ _ hsrc hdst]
    have hu : upload_file lo (pyStrip src) (splitPath (pyStrip dst)) store
        = (.error .fileNotFound, []) := by
      unfold upload_file
      rw [hlo]
      simp
    rw [hu]
  · rw [mainIter_delete_eq _ _ _ _ _ hdst]
    have hdel : delete store (splitPath (pyStrip dst)) "file"
        = (.error (.fileNotFound (splitPath (pyStrip dst))),
           [.statR (splitPath (pyStrip dst))]) := by
      simp [delete, hstat]
    rw [hdel]
  · rw [mainIter_view_eq _ _ _ _ _ hd hvm, hvml]
    have hview : view_contents (splitPath (pyStrip d)) store
        = (.error .ioError, store) := by
      unfold view_contents listdirOp listdirFS
      rw [hstat]
    simp only [if_pos rfl]
    rw [hview]
    simp

theorem create_dir_swallows_errors_witness :
    (mkdirFS (FSEntry.dir 0 []) ["a", "b"] = none
      ∧ create_dir (FSEntry.dir 0 []) ["a", "b"]
          = (FSEntry.dir 0 [], ["Error creating folder: mkdir failed"]))
    ∧ mainIter (fun _ => false) (FSEntry.dir 0 [])
        ["folder", "a/b", "yes", "yes"]
        = .nextIter (FSEntry.dir 0 []) []
    ∧ mainIter (fun _ => false) (FSEntry.dir 0 [])
        ["upload", "s.txt", "d"] = .exited 1
    ∧ mainIter (fun _ => false) (FSEntry.dir 0 [])
        ["delete", "file", "x"] = .exited 1
    ∧ mainIter (fun _ => false) (FSEntry.dir 0 [])
        ["view", "x", "list"] = .exited 1 := by
  refine ⟨⟨rfl, (create_dir_swallows_errors (FSEntry.dir 0 [])).1 ["a", "b"] rfl⟩,
          ?_, ?_, ?_, ?_⟩
  · exact (create_dir_swallows_errors (FSEntry.dir 0 [])).2.1
      (fun _ => false) "a/b" [] (by decide) rfl
  · exact (create_dir_swallows_errors (FSEntry.dir 0 [])).2.2.1
      (fun _ => false) "s.txt" "d" [] (by decide) (by decide) rfl
  · exact (create_dir_swallows_errors (FSEntry.dir 0 [])).2.2.2.1
      (fun _ => false) "x" [] (by decide) rfl
  · exact (create_dir_swallows_errors (FSEntry.dir 0 [])).2.2.2.2
      (fun _ => false) "x" "list" [] (by decide) (by decide) (by decide) rfl

/-- C1 counterexample: an unrecognized deletion-type answer is not
fatal.  With the sub-mode answer File (matching the wording of the
prompt) the delete operation performs nothing and the loop continues to
the next iteration instead of terminating the process with status 1. -/
theorem invalid_deletion_type_not_fatal :
    mainIter (fun _ => false) (FSEntry.dir 0 [])
        ["delete", "File", "d", "yes", "yes"]
      = ShellOutcome.nextIter (FSEntry.dir 0 []) []
    ∧ ShellOutcome.nextIter (FSEntry.dir 0 []) []
        ≠ ShellOutcome.exited 1 :=
  ⟨rfl, fun h => ShellOutcome.noConfusion h⟩

/-- C1 (amended): every unrecognized top-level command and every
unrecognized view-mode answer is fatal — the shell logs and terminates
the whole process with exit status 1 — but an unrecognized
deletion-type answer is not: the delete operation performs nothing and
control reaches the restart logic of the loop with the store
unchanged. -/
theorem invalid_input_fatality (lo : String → Bool) (store : FSEntry) :
    (∀ c rest, isExitTok c = false →
      pyLower (pyStrip c) ≠ "upload" → pyLower (pyStrip c) ≠ "folder" →
      pyLower (pyStrip c) ≠ "delete" → pyLower (pyStrip c) ≠ "view" →
      mainIter lo store (c :: rest) = .exited 1)
    ∧ (∀ d vm rest, isExitTok d = false → isExitTok vm = false →
      pyLower (pyStrip vm) ≠ "list" → pyLower (pyStrip vm) ≠ "tree" →
      pyLower (pyStrip vm) ≠ "csv" →
      mainIter lo store ("view" :: d :: vm :: rest) = .exited 1)
    ∧ (∀ dt dst rest, dt ≠ "file" → dt ≠ "folder" → isExitTok dst = false →
      mainIter lo store ("delete" :: dt :: dst :: rest)
        = afterOp store rest) := by
  refine ⟨fun c rest hc h1 h2 h3 h4 =>
            mainIter_invalid_choice lo store c rest hc h1 h2 h3 h4,
          fun d vm rest hd hvm h1 h2 h3 => ?_,
          fun dt dst rest h1 h2 hdst => ?_⟩
  · rw [mainIter_view_eq _ _ _ _ _ hd hvm]
    simp [h1, h2, h3]
  · rw [mainIter_delete_eq _ _ _ _ _ hdst]
    simp [delete, h1, h2]

theorem invalid_input_fatality_witness :
    mainIter (fun _ => false) (FSEntry.dir 0 []) ["blah"] = .exited 1
    ∧ mainIter (fun _ => false) (FSEntry.dir 0 [])
        ["view", "d", "json"] = .exited 1
    ∧ mainIter (fun _ => false) (FSEntry.dir 0 [])
        ["delete", "Folder", "d"] = afterOp (FSEntry.dir 0 []) [] :=
  ⟨(invalid_input_fatality (fun _ => false) (FSEntry.dir 0 [])).1 "blah" []
      (by decide) (by decide) (by decide) (by decide) (by decide),
   (invalid_input_fatality (fun _ => false) (FSEntry.dir 0 [])).2.1 "d" "json"
      [] (by decide) (by decide) (by decide) (by decide) (by decide),
   (invalid_input_fatality (fun _ => false) (FSEntry.dir 0 [])).2.2 "Folder"
      "d" [] (by decide) (by decide) (by decide)⟩

/-- C2 counterexample: the deletion-type question File or Folder? is
read with a bare input() call instead of ask, so the exit token typed
there does not terminate the process: the run continues all the way to
the next loop iteration instead of exiting with status 0. -/
theorem exit_token_ignored_at_deletion_prompt :
    mainIter (fun _ => false) (FSEntry.dir 0 [])
        ["delete", "exit", "d", "yes", "yes"]
      = ShellOutcome.nextIter (FSEntry.dir 0 []) []
    ∧ ShellOutcome.nextIter (FSEntry.dir 0 []) []
        ≠ ShellOutcome.exited 0 :=
  ⟨rfl, fun h => ShellOutcome.noConfusion h⟩

/-- C2 (amended): at every prompt that the program reads through ask —
the three credential prompts, the command prompt, the upload, folder,
delete and view sub-prompts, the CSV output prompt, and the restart and
credential-reuse prompts — entering the exit token (case-insensitive,
with any surrounding whitespace) terminates the process immediately
with exit status 0, regardless of how much of a command was already
entered.  The sole prompt not read through ask is the deletion-type
question, which is read with a bare input() call. -/
theorem exit_token_exits_every_ask_prompt (lo : String → Bool)
    (store : FSEntry) (t : String) (ht : isExitTok t = true) :
    (∀ rest, collectCreds (t :: rest) = .exit0)
    ∧ (∀ h rest, isExitTok h = false →
        collectCreds (h :: t :: rest) = .exit0)
    ∧ (∀ h u rest, isExitTok h = false → isExitTok u = false →
        collectCreds (h :: u :: t :: rest) = .exit0)
    ∧ (∀ rest, mainIter lo store (t :: rest) = .exited 0)
    ∧ (∀ rest, mainIter lo store ("upload" :: t :: rest) = .exited 0)
    ∧ (∀ src rest, isExitTok src = false →
        mainIter lo store ("upload" :: src :: t :: rest) = .exited 0)
    ∧ (∀ rest, mainIter lo store ("folder" :: t :: rest) = .exited 0)
    ∧ (∀ dt rest, mainIter lo store ("delete" :: dt :: t :: rest) = .exited 0)
    ∧ (∀ rest, mainIter lo store ("view" :: t :: rest) = .exited 0)
    ∧ (∀ d rest, isExitTok d = false →
        mainIter lo store ("view" :: d :: t :: rest) = .exited 0)
    ∧ (∀ d out rest, isExitTok d = false →
        view_contents (splitPath (pyStrip d)) store = (.ok out, store) →
        mainIter lo store ("view" :: d :: "csv" :: t :: rest) = .exited 0)
    ∧ (∀ dt dst rest, dt ≠ "file" → dt ≠ "folder" → isExitTok dst = false →
        mainIter lo store ("delete" :: dt :: dst :: t :: rest) = .exited 0)
    ∧ (∀ dt dst rest, dt ≠ "file" → dt ≠ "folder" → isExitTok dst = false →
        mainIter lo store ("delete" :: dt :: dst :: "yes" :: t :: rest)
          = .exited 0)
    ∧ (∀ dt dst rest, dt ≠ "file" → dt ≠ "folder" → isExitTok dst = false →
        mainIter lo store ("delete" :: dt :: dst :: "yes" :: "no" :: t :: rest)
          = .exited 0)
    ∧ (∀ dt dst h rest, dt ≠ "file" → dt ≠ "folder" →
        isExitTok dst = false → isExitTok h = false →
        mainIter lo store
            ("delete" :: dt :: dst :: "yes" :: "no" :: h :: t :: rest)
          = .exited 0)
    ∧ (∀ dt dst h u rest, dt ≠ "file" → dt ≠ "folder" →
        isExitTok dst = false → isExitTok h = false → isExitTok u = false →
        mainIter lo store
            ("delete" :: dt :: dst :: "yes" :: "no" :: h :: u :: t :: rest)
          = .exited 0) := by
  refine ⟨fun rest => collectCreds_exit1 rest ht,
          fun h rest hh => collectCreds_exit2 rest hh ht,
          fun h u rest hh hu => collectCreds_exit3 rest hh hu ht,
          fun rest => mainIter_exit_prompt lo store rest ht,
          fun rest => ?_, fun src rest hsrc => ?_, fun rest => ?_,
          fun dt rest => ?_, fun rest => ?_, fun d rest hd => ?_,
          fun d out rest hd hview => ?_,
          fun dt dst rest h1 h2 hdst => ?_,
          fun dt dst rest h1 h2 hdst => ?_,
          fun dt dst rest h1 h2 hdst => ?_,
          fun dt dst h rest h1 h2 hdst hh => ?_,
          fun dt dst h u rest h1 h2 hdst hh hu => ?_⟩
  · rw [mainIter_upload_unfold]
    rw [askStep_exit _ ht]
  · rw [mainIter_upload_unfold]
    simp only [askStep_got _ hsrc, askStep_exit _ ht]
  · rw [mainIter_folder_unfold]
    rw [askStep_exit _ ht]
  · rw [mainIter_delete_unfold]
    rw [askStep_exit _ ht]
  · rw [mainIter_view_unfold]
    rw [askStep_exit _ ht]
  · rw [mainIter_view_unfold]
    simp only [askStep_got _ hd, askStep_exit _ ht]
  · rw [mainIter_view_unfold]
    simp only [askStep_got _ hd,
      askStep_got _ (by decide : isExitTok "csv" = false), pyStrip_idem,
      show pyLower (pyStrip "csv") = "csv" from rfl]
    rw [if_neg (by decide), if_neg (by decide)]
    simp only [if_true]
    rw [hview]
    simp only [askStep_exit _ ht]
  · rw [mainIter_delete_unfold]
    simp only [askStep_got _ hdst, pyStrip_idem]
    simp only [delete, if_neg h1, if_neg h2]
    exact afterOp_exit store _ ht
  · rw [mainIter_delete_unfold]
    simp only [askStep_got _ hdst, pyStrip_idem]
    simp only [delete, if_neg h1, if_neg h2]
    exact afterOp_second_exit store _ (by decide) (by decide) ht
  · rw [mainIter_delete_unfold]
    simp only [askStep_got _ hdst, pyStrip_idem]
    simp only [delete, if_neg h1, if_neg h2]
    exact afterOp_recred1_exit store _ (by decide) (by decide) (by decide)
      (by decide) ht
  · rw [mainIter_delete_unfold]
    simp only [askStep_got _ hdst, pyStrip_idem]
    simp only [delete, if_neg h1, if_neg h2]
    exact afterOp_recred2_exit store _ (by decide) (by decide) (by decide)
      (by decide) hh ht
  · rw [mainIter_delete_unfold]
    simp only [askStep_got _ hdst, pyStrip_idem]
    simp only [delete, if_neg h1, if_neg h2]
    exact afterOp_recred3_exit store _ (by decide) (by decide) (by decide)
      (by decide) hh hu ht

theorem exit_token_exits_every_ask_prompt_witness :
    collectCreds [" EXIT "] = .exit0
    ∧ collectCreds ["h", " EXIT "] = .exit0
    ∧ collectCreds ["h", "u", " EXIT "] = .exit0
    ∧ mainIter (fun _ => false) (FSEntry.dir 0 []) [" EXIT "] = .exited 0
    ∧ mainIter (fun _ => false) (FSEntry.dir 0 [])
        ["upload", " EXIT "] = .exited 0
    ∧ mainIter (fun _ => false) (FSEntry.dir 0 [])
        ["upload", "s", " EXIT "] = .exited 0
    ∧ mainIter (fun _ => false) (FSEntry.dir 0 [])
        ["folder", " EXIT "] = .exited 0
    ∧ mainIter (fun _ => false) (FSEntry.dir 0 [])
        ["delete", "file", " EXIT "] = .exited 0
    ∧ mainIter (fun _ => false) (FSEntry.dir 0 [])
        ["view", " EXIT "] = .exited 0
    ∧ mainIter (fun _ => false) (FSEntry.dir 0 [])
        ["view", "x", " EXIT "] = .exited 0
    ∧ mainIter (fun _ => false) (FSEntry.dir 0 [])
        ["view", "", "csv", " EXIT "] = .exited 0
    ∧ mainIter (fun _ => false) (FSEntry.dir 0 [])
        ["delete", "skip", "x", " EXIT "] = .exited 0
    ∧ mainIter (fun _ => false) (FSEntry.dir 0 [])
        ["delete", "skip", "x", "yes", " EXIT "] = .exited 0
    ∧ mainIter (fun _ => false) (FSEntry.dir 0 [])
        ["delete", "skip", "x", "yes", "no", " EXIT "] = .exited 0
    ∧ mainIter (fun _ => false) (FSEntry.dir 0 [])
        ["delete", "skip", "x", "yes", "no", "h", " EXIT "] = .exited 0
    ∧ mainIter (fun _ => false) (FSEntry.dir 0 [])
        ["delete", "skip", "x", "yes", "no", "h", "u", " EXIT "]
        = .exited 0 := by
  have H := exit_token_exits_every_ask_prompt (fun _ => false)
    (FSEntry.dir 0 []) " EXIT " (by decide)
  obtain ⟨h1, h2, h3, h4, h5, h6, h7, h8, h9, h10, h11, h12, h13, h14,
    h15, h16⟩ := H
  exact ⟨h1 [], h2 "h" [] (by decide), h3 "h" "u" [] (by decide) (by decide),
         h4 [], h5 [], h6 "s" [] (by decide), h7 [], h8 "file" [], h9 [],
         h10 "x" [] (by decide), h11 "" [] [] (by decide) rfl,
         h12 "skip" "x" [] (by decide) (by decide) (by decide),
         h13 "skip" "x" [] (by decide) (by decide) (by decide),
         h14 "skip" "x" [] (by decide) (by decide) (by decide),
         h15 "skip" "x" "h" [] (by decide) (by decide) (by decide) (by decide),
         h16 "skip" "x" "h" "u" [] (by decide) (by decide) (by decide)
           (by decide) (by decide)⟩

theorem viewLoop_cons_none (base : List String) (n : String)
    (rest : List String) (s : FSEntry)
    (hs : statFS s (base ++ [n]) = none) :
    viewLoop base (n :: rest) s = (.error .ioError, s) := by
  unfold viewLoop statOp
  rw [hs]

theorem viewLoop_cons_some (base : List String) (n : String)
    (rest : List String) (s : FSEntry) (e : FSEntry)
    (hs : statFS s (base ++ [n]) = some e) :
    viewLoop base (n :: rest) s
      = match viewLoop base rest s with
        | (.ok out, s2) => (.ok ((n, e.mtimeOf) :: out), s2)
        | (.error err, s2) => (.error err, s2) := by
  conv_lhs => unfold viewLoop statOp
  rw [hs]

theorem viewLoop_ok_names (base : List String) (names : List String)
    (s : FSEntry) (out : List (String × Nat))
    (h : (viewLoop base names s).1 = .ok out) : out.map Prod.fst = names := by
  induction names generalizing out with
  | nil =>
    unfold viewLoop at h
    simp only [Except.ok.injEq] at h
    subst h
    rfl
  | cons n rest ih =>
    cases hs : statFS s (base ++ [n]) with
    | none =>
      rw [viewLoop_cons_none base n rest s hs] at h
      simp at h
    | some e =>
      rw [viewLoop_cons_some base n rest s e hs] at h
      cases h2 : viewLoop base rest s with
      | mk r s2 =>
        rw [h2] at h
        cases r with
        | error err => simp at h
        | ok out2 =>
          simp only [Except.ok.injEq] at h
          subst h
          simp [ih out2 (by rw [h2])]

theorem view_contents_listed (p : List String) (s : FSEntry)
    (names : List String) (hl : listdirFS s p = some names) :
    view_contents p s = viewLoop p (List.insertionSort nameLe names) s := by
  unfold view_contents listdirOp
  rw [hl]

/-- C6: the flat listing returns its (name, mtime) entries sorted
ascending by name (code-point lexicographic order, the order Python
sorted uses), and the tree renderer lists each directory it visits in
ascending name order: the sequence of children it walks is sorted by
name and is a permutation of the children of the directory. -/
theorem listing_sorted_by_name (s : FSEntry) (p : List String) :
    (∀ out s2, view_contents p s = (.ok out, s2) →
      List.Sorted nameLe (out.map Prod.fst))
    ∧ (∀ cs : List (String × FSEntry),
        List.Sorted childLE (sortChildren cs)
        ∧ (sortChildren cs).Perm cs
        ∧ ∀ m pre, walk (FSEntry.dir m cs) pre
            = walkList (sortChildren cs) pre) := by
  constructor
  · intro out s2 h
    cases hl : listdirFS s p with
    | none =>
      unfold view_contents listdirOp at h
      rw [hl] at h
      simp at h
    | some names =>
      rw [view_contents_listed p s names hl] at h
      have hn : (viewLoop p (List.insertionSort nameLe names) s).1
          = .ok out := by rw [h]
      have hmap := viewLoop_ok_names p _ s out hn
      rw [hmap]
      exact List.sorted_insertionSort nameLe names
  · intro cs
    exact ⟨List.sorted_insertionSort childLE cs,
           List.perm_insertionSort childLE cs,
           fun m pre => rfl⟩

theorem listing_sorted_by_name_witness :
    List.Sorted nameLe
      (([("a", 1), ("b", 2)] : List (String × Nat)).map Prod.fst) :=
  (listing_sorted_by_name
      (FSEntry.dir 0 [("b", FSEntry.file 2), ("a", FSEntry.file 1)]) []).1
    [("a", 1), ("b", 2)]
    (FSEntry.dir 0 [("b", FSEntry.file 2), ("a", FSEntry.file 1)]) rfl

/-- C7: in every directory the tree renderer prints each entry except
the last with connector "├── " and the last with "└── "; names of
directories are suffixed "/"; and a directory entry's children are
rendered with the prefix extended by four spaces when that entry was
the last at its level, otherwise by "│   ".  Stated for an arbitrary
non-last entry, an arbitrary last entry, and a sorted three-entry
directory. -/
theorem tree_branch_connectors :
    (∀ name e rest pre, rest ≠ ([] : List (String × FSEntry)) →
      walkList ((name, e) :: rest) pre
        = (pre ++ "├── " ++ name ++ (if e.isDirE then "/" else ""))
          :: (walk e (pre ++ "│   ") ++ walkList rest pre))
    ∧ (∀ name e pre,
      walkList [(name, e)] pre
        = (pre ++ "└── " ++ name ++ (if e.isDirE then "/" else ""))
          :: walk e (pre ++ "    "))
    ∧ (∀ a b c mroot mb mc bcs ccs pre, nameLe a b → nameLe b c →
      walk (FSEntry.dir mroot
          [(a, FSEntry.file 0), (b, FSEntry.dir mb bcs),
           (c, FSEntry.dir mc ccs)]) pre
        = (pre ++ "├── " ++ a)
          :: (pre ++ "├── " ++ b ++ "/")
          :: (walkList (sortChildren bcs) (pre ++ "│   ")
              ++ (pre ++ "└── " ++ c ++ "/")
              :: walkList (sortChildren ccs) (pre ++ "    "))) := by
  refine ⟨fun name e rest pre hrest => ?_, fun name e pre => ?_,
          fun a b c mroot mb mc bcs ccs pre hab hbc => ?_⟩
  · have hne : rest.isEmpty = false := by
      cases rest with
      | nil => exact absurd rfl hrest
      | cons x xs => rfl
    cases e with
    | file m =>
      simp [walkList, walk, branchFor, FSEntry.isDirE, hne]
    | dir m cs =>
      simp [walkList, walk, branchFor, extFor, FSEntry.isDirE, hne]
  · cases e with
    | file m =>
      simp [walkList, walk, branchFor, FSEntry.isDirE]
    | dir m cs =>
      simp [walkList, walk, branchFor, extFor, FSEntry.isDirE]
  · have hac : nameLe a c := charListLe_trans _ _ _ hab hbc
    have hsorted : List.Sorted childLE
        [(a, FSEntry.file 0), (b, FSEntry.dir mb bcs),
         (c, FSEntry.dir mc ccs)] := by
      refine List.sorted_cons.mpr ⟨?_, List.sorted_cons.mpr ⟨?_, ?_⟩⟩
      · intro x hx
        rcases List.mem_cons.mp hx with h | h
        · subst h; exact hab
        · rcases List.mem_cons.mp h with h2 | h2
          · subst h2; exact hac
          · simp at h2
      · intro x hx
        rcases List.mem_cons.mp hx with h | h
        · subst h; exact hbc
        · simp at h
      · exact List.sorted_singleton _
    have heq : sortChildren
        [(a, FSEntry.file 0), (b, FSEntry.dir mb bcs),
         (c, FSEntry.dir mc ccs)]
        = [(a, FSEntry.file 0), (b, FSEntry.dir mb bcs),
           (c, FSEntry.dir mc ccs)] :=
      List.Sorted.insertionSort_eq hsorted
    show walkList (sortChildren _) pre = _
    rw [heq]
    simp [walkList, branchFor, extFor]

theorem tree_branch_connectors_witness :
    walkList [("a", FSEntry.file 7), ("b", FSEntry.file 8)] ""
      = "├── a" :: walkList [("b", FSEntry.file 8)] ""
    ∧ walk (FSEntry.dir 0
        [("a", FSEntry.file 0), ("b", FSEntry.dir 1 []),
         ("c", FSEntry.dir 2 [])]) ""
      = ["├── a", "├── b/", "└── c/"] := by
  constructor
  · have h := tree_branch_connectors.1 "a" (FSEntry.file 7)
      [("b", FSEntry.file 8)] "" (by simp)
    rw [h]
    simp [walk, FSEntry.isDirE]
  · have h := tree_branch_connectors.2.2 "a" "b" "c" 0 1 2 [] [] ""
      (by decide) (by decide)
    rw [h]
    simp [walkList, sortChildren, List.insertionSort]
